import Mathlib

/-!
Shallow embedding of the AI orchestration subsystem of the Autopump repository
(`src/ai/manager.py`, `src/ai/providers/{base,gemini,lmstudio,ollama}.py`), and
proofs about it.  Python floats are modelled by exact rationals; Python strings
by Lean strings; the `in` substring test by an explicit character-list search.
Network calls and raised exceptions are modelled by explicit oracle values fed
to the translated control flow.
-/

namespace Autopump

/-- Boolean test that `needle` occurs at the head of `hay`; the base case of
Python's substring membership.  An empty needle matches everywhere. -/
def charsStartsWith : List Char → List Char → Bool
  | _, [] => true
  | [], _ :: _ => false
  | c :: cs, d :: ds => c == d && charsStartsWith cs ds

/-- Boolean substring search over character lists, modelling Python's
`needle in hay` on strings. -/
def charsContains (hay needle : List Char) : Bool :=
  match hay with
  | [] => charsStartsWith [] needle
  | c :: t => charsStartsWith (c :: t) needle || charsContains t needle

/-- Python's `sub in s` substring membership test on strings. -/
def containsSubstr (s sub : String) : Bool :=
  charsContains s.data sub.data

/-- Dataclass `AIResponse` from `src/ai/providers/base.py`.  The dynamically
typed `metadata` dict only ever holds string values in the provider code, so it
is modelled as an association list; `__post_init__` turning `None` into `[]`
and `{}` is reflected by the defaults. -/
structure AIResponse where
  success : Bool
  analysis : String
  confidence : ℚ := 0
  recommendation : String := "hold"
  risk_score : ℚ := 1/2
  reasoning : List String := []
  metadata : List (String × String) := []
deriving Repr, DecidableEq

/-- Metadata dict attached by `AIManager.get_consensus_analysis` (it also holds
the integer provider count and the list of individual responses, which an
association list of strings cannot carry). -/
structure ConsensusMetadata where
  provider : String
  provider_count : Nat
  individual_responses : List AIResponse
deriving Repr, DecidableEq

/-- Result of `AIManager.get_consensus_analysis`.  The Python code reuses the
`AIResponse` dataclass with a differently-shaped metadata dict; the embedding
gives that shape its own type, `none` standing for the empty dict of the
no-providers branch. -/
structure ConsensusResponse where
  success : Bool
  analysis : String
  confidence : ℚ := 0
  recommendation : String := "hold"
  risk_score : ℚ := 1/2
  reasoning : List String := []
  metadata : Option ConsensusMetadata := none
deriving Repr, DecidableEq

/-! Response interpretation, `GeminiProvider._parse_analysis_response`
(`src/ai/providers/gemini.py`, lines 146-202). -/

/-- Recommendation extraction of `gemini.py` lines 151-158, evaluated on the
lowercased text. -/
def geminiRecommendation (text_lower : String) : String :=
  if containsSubstr text_lower "recommend buy" || containsSubstr text_lower "should buy" then
    "buy"
  else if containsSubstr text_lower "recommend sell" || containsSubstr text_lower "should sell" then
    "sell"
  else if containsSubstr text_lower "avoid" || containsSubstr text_lower "skip" then
    "sell"
  else
    "hold"

/-- Confidence extraction of `gemini.py` lines 160-167. -/
def geminiConfidence (text_lower : String) : ℚ :=
  if containsSubstr text_lower "high confidence" || containsSubstr text_lower "very confident" then
    0.8
  else if containsSubstr text_lower "low confidence" || containsSubstr text_lower "uncertain" then
    0.3
  else if containsSubstr text_lower "extremely confident" then
    0.9
  else
    0.5

/-- Risk extraction of `gemini.py` lines 169-176.  Note the source checks
`"high risk" or "risky"` before `"extremely risky"`. -/
def geminiRisk (text_lower : String) : ℚ :=
  if containsSubstr text_lower "high risk" || containsSubstr text_lower "risky" then
    0.8
  else if containsSubstr text_lower "low risk" || containsSubstr text_lower "safe" then
    0.2
  else if containsSubstr text_lower "extremely risky" then
    0.9
  else
    0.5

/-- Bullet markers accepted by `gemini.py` line 183 (`line.startswith(...)`). -/
def geminiMarkers : List String :=
  ["-", "•", "*", "1.", "2.", "3.", "4.", "5."]

/-- Reasoning extraction of `gemini.py` lines 178-184 together with the
`reasoning[:5]` cap of line 192: split on newlines, strip, keep marker lines,
first five in original order. -/
def geminiReasoning (text : String) : List String :=
  (((text.splitOn "\n").map String.trim).filter
    (fun line => geminiMarkers.any (fun m => line.startsWith m))).take 5

/-- Body of the `try` block of `_parse_analysis_response` in `gemini.py`. -/
def geminiParseCore (model text : String) : AIResponse :=
  let text_lower := text.toLower
  { success := true
    analysis := text
    confidence := geminiConfidence text_lower
    recommendation := geminiRecommendation text_lower
    risk_score := geminiRisk text_lower
    reasoning := geminiReasoning text
    metadata := [("provider", "gemini"), ("model", model)] }

/-- The `except` handler of `_parse_analysis_response` in `gemini.py` lines
196-202: raw text kept, `success=True`, dataclass defaults for the scores, and
a `parse_error` note in the metadata. -/
def geminiParseFallback (model text err : String) : AIResponse :=
  { success := true
    analysis := text
    metadata := [("provider", "gemini"), ("model", model), ("parse_error", err)] }

/-- Full `GeminiProvider._parse_analysis_response`.  Whether the `try` body
raises (it cannot in the embedded pure fragment, but the handler exists in the
source) is an oracle: `some err` models a raised exception rendered as `err`. -/
def geminiParseAnalysisResponse (model : String) (raised : Option String)
    (text : String) : AIResponse :=
  match raised with
  | some err => geminiParseFallback model text err
  | none => geminiParseCore model text

/-! Response interpretation, `LMStudioProvider._parse_analysis_response`
(`src/ai/providers/lmstudio.py`, lines 134-190). -/

/-- Recommendation extraction of `lmstudio.py` lines 139-146 (same rules and
order as the Gemini interpreter). -/
def lmstudioRecommendation (text_lower : String) : String :=
  if containsSubstr text_lower "recommend buy" || containsSubstr text_lower "should buy" then
    "buy"
  else if containsSubstr text_lower "recommend sell" || containsSubstr text_lower "should sell" then
    "sell"
  else if containsSubstr text_lower "avoid" || containsSubstr text_lower "skip" then
    "sell"
  else
    "hold"

/-- Confidence extraction of `lmstudio.py` lines 148-155. -/
def lmstudioConfidence (text_lower : String) : ℚ :=
  if containsSubstr text_lower "high confidence" || containsSubstr text_lower "very confident" then
    0.8
  else if containsSubstr text_lower "low confidence" || containsSubstr text_lower "uncertain" then
    0.3
  else if containsSubstr text_lower "extremely confident" then
    0.9
  else
    0.5

/-- Risk extraction of `lmstudio.py` lines 157-164; as in `gemini.py`,
`"high risk" or "risky"` is checked before `"extremely risky"`. -/
def lmstudioRisk (text_lower : String) : ℚ :=
  if containsSubstr text_lower "high risk" || containsSubstr text_lower "risky" then
    0.8
  else if containsSubstr text_lower "low risk" || containsSubstr text_lower "safe" then
    0.2
  else if containsSubstr text_lower "extremely risky" || containsSubstr text_lower "very dangerous" then
    0.9
  else
    0.5

/-- Bullet markers of `lmstudio.py` line 171; the second entry is the
mojibake three-character sequence present verbatim in the source file. -/
def lmstudioMarkers : List String :=
  ["-", "â€¢", "*", "1.", "2.", "3.", "4.", "5."]

/-- Reasoning extraction of `lmstudio.py` lines 166-172 with the
`reasoning[:5]` cap of line 180. -/
def lmstudioReasoning (text : String) : List String :=
  (((text.splitOn "\n").map String.trim).filter
    (fun line => lmstudioMarkers.any (fun m => line.startsWith m))).take 5

/-- Body of the `try` block of `_parse_analysis_response` in `lmstudio.py`. -/
def lmstudioParseCore (model text : String) : AIResponse :=
  let text_lower := text.toLower
  { success := true
    analysis := text
    confidence := lmstudioConfidence text_lower
    recommendation := lmstudioRecommendation text_lower
    risk_score := lmstudioRisk text_lower
    reasoning := lmstudioReasoning text
    metadata := [("provider", "lmstudio"), ("model", model)] }

/-- The `except` handler of `_parse_analysis_response` in `lmstudio.py`
lines 184-190. -/
def lmstudioParseFallback (model text err : String) : AIResponse :=
  { success := true
    analysis := text
    metadata := [("provider", "lmstudio"), ("model", model), ("parse_error", err)] }

/-- Full `LMStudioProvider._parse_analysis_response`, with the same raise
oracle convention as the Gemini interpreter. -/
def lmstudioParseAnalysisResponse (model : String) (raised : Option String)
    (text : String) : AIResponse :=
  match raised with
  | some err => lmstudioParseFallback model text err
  | none => lmstudioParseCore model text

/-! Response interpretation, `OllamaProvider._parse_analysis_response`
(`src/ai/providers/ollama.py`, lines 119-174).  Its rule tables differ from
the Gemini/LM Studio ones. -/

/-- Recommendation extraction of `ollama.py` lines 125-130: `"buy"` together
with `"recommend"` anywhere in the text, else `"sell"` with `"recommend"`,
else hold. -/
def ollamaRecommendation (text_lower : String) : String :=
  if containsSubstr text_lower "buy" && containsSubstr text_lower "recommend" then
    "buy"
  else if containsSubstr text_lower "sell" && containsSubstr text_lower "recommend" then
    "sell"
  else
    "hold"

/-- Confidence extraction of `ollama.py` lines 132-139. -/
def ollamaConfidence (text_lower : String) : ℚ :=
  if containsSubstr text_lower "high confidence" then 0.8
  else if containsSubstr text_lower "low confidence" then 0.3
  else if containsSubstr text_lower "very confident" then 0.9
  else 0.5

/-- Risk extraction of `ollama.py` lines 141-148. -/
def ollamaRisk (text_lower : String) : ℚ :=
  if containsSubstr text_lower "high risk" then 0.8
  else if containsSubstr text_lower "low risk" then 0.2
  else if containsSubstr text_lower "very risky" || containsSubstr text_lower "extremely risky" then 0.9
  else 0.5

/-- Causal keywords of `ollama.py` line 155. -/
def ollamaCausalWords : List String :=
  ["because", "due to", "reason"]

/-- Reasoning extraction of `ollama.py` lines 150-156 with the
`reasoning[:5]` cap of line 164: marker lines or lines whose lowercase form
holds a causal keyword. -/
def ollamaReasoning (text : String) : List String :=
  (((text.splitOn "\n").map String.trim).filter
    (fun line =>
      ["-", "•", "*"].any (fun m => line.startsWith m)
        || ollamaCausalWords.any (fun w => containsSubstr line.toLower w))).take 5

/-- Body of the `try` block of `_parse_analysis_response` in `ollama.py`. -/
def ollamaParseCore (model text : String) : AIResponse :=
  let text_lower := text.toLower
  { success := true
    analysis := text
    confidence := ollamaConfidence text_lower
    recommendation := ollamaRecommendation text_lower
    risk_score := ollamaRisk text_lower
    reasoning := ollamaReasoning text
    metadata := [("provider", "ollama"), ("model", model)] }

/-- The `except` handler of `_parse_analysis_response` in `ollama.py`
lines 168-174. -/
def ollamaParseFallback (model text err : String) : AIResponse :=
  { success := true
    analysis := text
    metadata := [("provider", "ollama"), ("model", model), ("parse_error", err)] }

/-- Full `OllamaProvider._parse_analysis_response`. -/
def ollamaParseAnalysisResponse (model : String) (raised : Option String)
    (text : String) : AIResponse :=
  match raised with
  | some err => ollamaParseFallback model text err
  | none => ollamaParseCore model text

/-! Adapter-level `analyze_token` methods.  The network interaction inside the
`try` block is an oracle value; each constructor names one control path of the
source. -/

/-- Oracle for one Gemini network call (`gemini.py` lines 35-81):
an exception anywhere in the `try` block (`raised`), a non-200 status
(`badStatus` with the response text), a 200 reply whose JSON has no
`candidates` (`noCandidates`), or a reply text handed to the interpreter
(`okText`, carrying the interpreter's own raise oracle). -/
inductive GeminiNet
  | raised (e : String)
  | badStatus (errText : String)
  | noCandidates
  | okText (parseRaised : Option String) (text : String)
deriving Repr, DecidableEq

/-- `GeminiProvider.analyze_token` over the network oracle. -/
def geminiAnalyzeToken (model : String) (net : GeminiNet) : AIResponse :=
  match net with
  | .raised e => { success := false, analysis := "Error: " ++ e }
  | .badStatus t => { success := false, analysis := "API Error: " ++ t }
  | .noCandidates => { success := false, analysis := "No response from Gemini" }
  | .okText raised text => geminiParseAnalysisResponse model raised text

/-- Oracle for one Ollama or LM Studio network call (`ollama.py` lines 32-65,
`lmstudio.py` lines 32-72): exception, non-200 status, or a reply text. -/
inductive LocalNet
  | raised (e : String)
  | badStatus (errText : String)
  | okText (parseRaised : Option String) (text : String)
deriving Repr, DecidableEq

/-- `OllamaProvider.analyze_token` over the network oracle. -/
def ollamaAnalyzeToken (model : String) (net : LocalNet) : AIResponse :=
  match net with
  | .raised e => { success := false, analysis := "Error: " ++ e }
  | .badStatus t => { success := false, analysis := "API Error: " ++ t }
  | .okText raised text => ollamaParseAnalysisResponse model raised text

/-- `LMStudioProvider.analyze_token` over the network oracle. -/
def lmstudioAnalyzeToken (model : String) (net : LocalNet) : AIResponse :=
  match net with
  | .raised e => { success := false, analysis := "Error: " ++ e }
  | .badStatus t => { success := false, analysis := "API Error: " ++ t }
  | .okText raised text => lmstudioParseAnalysisResponse model raised text

/-- Modelled from the spec: `src/ai/providers/localai.py` is imported by the
providers package but its source is absent from the repository snapshot.
This and the following LocalAI definitions follow §4.2's rule table in the
spec's stated priority order — the sell-trigger phrase set is checked before
the buy-trigger set. -/
def localaiRecommendation (text_lower : String) : String :=
  if containsSubstr text_lower "recommend sell" || containsSubstr text_lower "should sell"
      || containsSubstr text_lower "avoid" || containsSubstr text_lower "skip" then
    "sell"
  else if containsSubstr text_lower "recommend buy" || containsSubstr text_lower "should buy" then
    "buy"
  else
    "hold"

/-- Modelled from the spec: §4.2's confidence table with "extremely
confident" listed (and so checked) first. -/
def localaiConfidence (text_lower : String) : ℚ :=
  if containsSubstr text_lower "extremely confident" then
    0.9
  else if containsSubstr text_lower "high confidence" || containsSubstr text_lower "very confident" then
    0.8
  else if containsSubstr text_lower "low confidence" || containsSubstr text_lower "uncertain" then
    0.3
  else
    0.5

/-- Modelled from the spec: §4.2's risk table with "extremely risky" listed
(and so checked) first. -/
def localaiRisk (text_lower : String) : ℚ :=
  if containsSubstr text_lower "extremely risky" then
    0.9
  else if containsSubstr text_lower "high risk" || containsSubstr text_lower "risky" then
    0.8
  else if containsSubstr text_lower "low risk" || containsSubstr text_lower "safe" then
    0.2
  else
    0.5

/-- Modelled from the spec: §4.2's reasoning capture — marker lines or lines
holding a causal keyword, first five in original order. -/
def localaiReasoning (text : String) : List String :=
  (((text.splitOn "\n").map String.trim).filter
    (fun line =>
      geminiMarkers.any (fun m => line.startsWith m)
        || ollamaCausalWords.any (fun w => containsSubstr line.toLower w))).take 5

/-- Modelled from the spec: the LocalAI interpreter's happy path over the
lowercased reply. -/
def localaiParseCore (model text : String) : AIResponse :=
  let text_lower := text.toLower
  { success := true
    analysis := text
    confidence := localaiConfidence text_lower
    recommendation := localaiRecommendation text_lower
    risk_score := localaiRisk text_lower
    reasoning := localaiReasoning text
    metadata := [("provider", "localai"), ("model", model)] }

/-- Modelled from the spec: §4.2's failure policy — a raising extraction
still yields `success=true` with the raw text and a `parse_error` note. -/
def localaiParseFallback (model text err : String) : AIResponse :=
  { success := true
    analysis := text
    metadata := [("provider", "localai"), ("model", model), ("parse_error", err)] }

/-- Modelled from the spec: the LocalAI interpreter with the same raise
oracle convention as the translated interpreters. -/
def localaiParseAnalysisResponse (model : String) (raised : Option String)
    (text : String) : AIResponse :=
  match raised with
  | some err => localaiParseFallback model text err
  | none => localaiParseCore model text

/-- Modelled from the spec: LocalAI `analyze_token` per §4.1 — transport
failures become failure outcomes locally; a reply text goes to the
interpreter. -/
def localaiAnalyzeToken (model : String) (net : LocalNet) : AIResponse :=
  match net with
  | .raised e => { success := false, analysis := "Error: " ++ e }
  | .badStatus t => { success := false, analysis := "API Error: " ++ t }
  | .okText raised text => localaiParseAnalysisResponse model raised text

/-! Orchestrator, `AIManager` (`src/ai/manager.py`). -/

/-- One registered provider as the orchestrator sees it during a single
`analyze_token` fan-out: its `name` attribute and the behaviour of its
`analyze_token` coroutine on this request — a returned response (`Except.ok`)
or a raised exception rendered as a message (`Except.error`). -/
structure ProviderCall where
  name : String
  result : Except String AIResponse
deriving Repr

/-- `AIManager._safe_analyze_token` (`manager.py` lines 204-223): pass a
returned response through; convert a raised exception into a failure outcome
naming the provider. -/
def safe_analyze_token (p : ProviderCall) : AIResponse :=
  match p.result with
  | .ok r => r
  | .error e =>
      { success := false
        analysis := "Provider " ++ p.name ++ " failed: " ++ e
        metadata := [("provider", p.name), ("error", e)] }

/-- `AIManager.analyze_token` (`manager.py` lines 75-106): empty provider list
short-circuits to `[]`; otherwise one task per provider in registration order,
`asyncio.gather(..., return_exceptions=True)` (order-preserving by its
semantics), then the `isinstance` filter loop.  Since `_safe_analyze_token`
never raises, every gathered entry is a response (`Except.ok`); the
`Except.error` arm of the filter mirrors the `isinstance(response, Exception)`
branch of the source. -/
def analyze_token (providers : List ProviderCall) : List AIResponse :=
  if providers.isEmpty then
    []
  else
    let responses : List (Except String AIResponse) :=
      providers.map (fun p => Except.ok ( safe_analyze_token p))
    responses.filterMap (fun r =>
      match r with
      | .ok a => some a
      | .error _ => none)

/-! Consensus aggregation, `AIManager.get_consensus_analysis`
(`manager.py` lines 108-184). -/

/-- Vote tally `sum(1 for r in responses if r.recommendation == rec)` of
`manager.py` lines 127-129. -/
def voteCount (responses : List AIResponse) (rec : String) : Nat :=
  (responses.filter (fun r => r.recommendation == rec)).length

/-- Consensus recommendation rule of `manager.py` lines 132-137. -/
def consensusRecommendation (buy_votes sell_votes hold_votes : Nat) : String :=
  if buy_votes > sell_votes ∧ buy_votes > hold_votes then "buy"
  else if sell_votes > buy_votes ∧ sell_votes > hold_votes then "sell"
  else "hold"

/-- Metadata lookup `metadata.get(key, default)` on the association-list
model of the dict. -/
def dictGet (d : List (String × String)) (key dflt : String) : String :=
  match d.find? (fun kv => kv.1 == key) with
  | some kv => kv.2
  | none => dflt

/-- Rendering of a rational in the consensus report.  The Python code formats
floats with two decimals; no verified property inspects this report text, so
the rendering is the exact-rational one. -/
def ratStr (q : ℚ) : String := toString q

/-- Per-provider section of the consensus report, `manager.py`
lines 163-170. -/
def providerSection (i : Nat) (r : AIResponse) : String :=
  let provider_name := dictGet r.metadata "provider" ("Provider " ++ toString (i + 1))
  "\n" ++ provider_name.toUpper ++ ":\n"
    ++ "- Recommendation: " ++ r.recommendation ++ "\n"
    ++ "- Confidence: " ++ ratStr r.confidence ++ "\n"
    ++ "- Risk: " ++ ratStr r.risk_score ++ "\n"
    ++ (if r.reasoning.isEmpty then ""
        else "- Key points: " ++ String.intercalate "; " (r.reasoning.take 2) ++ "\n")

/-- Header of the consensus report, `manager.py` lines 149-161. -/
def consensusHeader (n buy_votes sell_votes hold_votes : Nat) (conf risk : ℚ)
    (rec : String) : String :=
  "\nCONSENSUS ANALYSIS (" ++ toString n ++ " providers):\n\n"
    ++ "Recommendation: " ++ rec.toUpper ++ "\n"
    ++ "- Buy votes: " ++ toString buy_votes ++ "\n"
    ++ "- Sell votes: " ++ toString sell_votes ++ "  \n"
    ++ "- Hold votes: " ++ toString hold_votes ++ "\n\n"
    ++ "Average Confidence: " ++ ratStr conf ++ "\n"
    ++ "Average Risk Score: " ++ ratStr risk ++ "\n\n"
    ++ "Individual Provider Analyses:\n"

/-- `AIManager.get_consensus_analysis` applied to the collected responses
(the source first awaits `analyze_token`; the embedding takes that list as
input).  Empty list: the fixed failure response of lines 120-124.  Otherwise
votes, the winner rule, arithmetic means over all responses, reasoning lists
concatenated in response order and capped at 10, and the consensus metadata
of lines 179-183. -/
def get_consensus_analysis (responses : List AIResponse) : ConsensusResponse :=
  if responses.isEmpty then
    { success := false
      analysis := "No AI providers available for analysis" }
  else
    let buy_votes := voteCount responses "buy"
    let sell_votes := voteCount responses "sell"
    let hold_votes := voteCount responses "hold"
    let consensus_recommendation := consensusRecommendation buy_votes sell_votes hold_votes
    let avg_confidence := (responses.map (fun r => r.confidence)).sum / (responses.length : ℚ)
    let avg_risk_score := (responses.map (fun r => r.risk_score)).sum / (responses.length : ℚ)
    let all_reasoning := (responses.map (fun r => r.reasoning)).flatten
    let consensus_text :=
      consensusHeader responses.length buy_votes sell_votes hold_votes
        avg_confidence avg_risk_score consensus_recommendation
        ++ String.join ((responses.enum.map (fun ir => providerSection ir.1 ir.2)))
    { success := true
      analysis := consensus_text
      confidence := avg_confidence
      recommendation := consensus_recommendation
      risk_score := avg_risk_score
      reasoning := all_reasoning.take 10
      metadata := some
        { provider := "consensus"
          provider_count := responses.length
          individual_responses := responses } }

/-! Provider registry, `AIManager._setup_providers` (`manager.py` lines
29-73) and the provider constructors. -/

/-- Configuration entry for a local backend (`ollama`, `lmstudio`,
`localai`): the keys read by the constructors, each possibly absent.
`enabled` models `entry.get("enabled", False)`. -/
structure LocalConfig where
  enabled : Bool := false
  url : Option String := none
  model : Option String := none
  timeout : Option Nat := none
deriving Repr, DecidableEq

/-- Configuration entry for the Gemini backend (`gemini.py` lines 21-33).
The `api_key` value `some ""` models a present but empty (falsy) key. -/
structure GeminiConfig where
  enabled : Bool := false
  api_key : Option String := none
  model : Option String := none
  timeout : Option Nat := none
deriving Repr, DecidableEq

/-- The `config["providers"]` mapping: one optional entry per known key.
Python reads the four keys by name (`"ollama" in provider_configs`, ...), so
the mapping's own iteration order never matters; the structure encodes
exactly the four lookups the source performs. -/
structure ProvidersConfig where
  ollama : Option LocalConfig := none
  lmstudio : Option LocalConfig := none
  localai : Option LocalConfig := none
  gemini : Option GeminiConfig := none
deriving Repr, DecidableEq

/-- Kind tag of a constructed provider. -/
inductive ProviderKind
  | ollama
  | lmstudio
  | localai
  | gemini
deriving Repr, DecidableEq

/-- A constructed provider adapter: its kind, its endpoint URL or API key,
its model identifier and timeout, as stored by the constructors. -/
structure Provider where
  kind : ProviderKind
  endpointOrKey : String
  model : String
  timeout : Nat
deriving Repr, DecidableEq

/-- `OllamaProvider.__init__` (`ollama.py` lines 21-30): defaults are applied
for every key; construction never raises. -/
def ollamaInit (cfg : LocalConfig) : Except String Provider :=
  Except.ok
    { kind := .ollama
      endpointOrKey := cfg.url.getD "http://localhost:11434"
      model := cfg.model.getD "llama3.2"
      timeout := cfg.timeout.getD 30 }

/-- `LMStudioProvider.__init__` (`lmstudio.py` lines 21-30): never raises. -/
def lmstudioInit (cfg : LocalConfig) : Except String Provider :=
  Except.ok
    { kind := .lmstudio
      endpointOrKey := cfg.url.getD "http://localhost:1234"
      model := cfg.model.getD "local-model"
      timeout := cfg.timeout.getD 30 }

/-- Modelled from the spec: `src/ai/providers/localai.py` is absent from the
repository snapshot.  Per §4.1 and §7, construction fails fast only for a
backend requiring a mandatory credential, and the spec names only the Gemini
API key as such, so the LocalAI constructor (a local URL backend like Ollama
and LM Studio) never raises. -/
def localaiInit (cfg : LocalConfig) : Except String Provider :=
  Except.ok
    { kind := .localai
      endpointOrKey := cfg.url.getD "http://localhost:8080"
      model := cfg.model.getD "local-model"
      timeout := cfg.timeout.getD 30 }

/-- `GeminiProvider.__init__` (`gemini.py` lines 21-33): raises
`ValueError("Gemini API key is required")` exactly when `config.get("api_key")`
is falsy, i.e. absent or the empty string. -/
def geminiInit (cfg : GeminiConfig) : Except String Provider :=
  let key := cfg.api_key.getD ""
  if key == "" then
    Except.error "Gemini API key is required"
  else
    Except.ok
      { kind := .gemini
        endpointOrKey := key
        model := cfg.model.getD "gemini-1.5-flash"
        timeout := cfg.timeout.getD 30 }

/-- One `if ... enabled ... try/except` block of `_setup_providers`: skipped
when the key is absent or disabled; a raising constructor is logged and
contributes nothing; a successful one appends its provider. -/
def setupSlot {α : Type} (entry : Option α) (enabled : α → Bool)
    (mk : α → Except String Provider) : List Provider :=
  match entry with
  | none => []
  | some cfg =>
      if enabled cfg then
        match mk cfg with
        | .ok p => [p]
        | .error _ => []
      else
        []

/-- `AIManager._setup_providers`: the four blocks run in the fixed source
order Ollama, LM Studio, LocalAI, Gemini, each appending to
`self.providers`. -/
def setup_providers (cfg : ProvidersConfig) : List Provider :=
  setupSlot cfg.ollama (fun c => c.enabled) ollamaInit
    ++ setupSlot cfg.lmstudio (fun c => c.enabled) lmstudioInit
    ++ setupSlot cfg.localai (fun c => c.enabled) localaiInit
    ++ setupSlot cfg.gemini (fun c => c.enabled) geminiInit

/-- Whether the configuration has kind `k` present with `enabled=true`: the
guard of `k`'s block in `_setup_providers`. -/
def kindEnabled (cfg : ProvidersConfig) : ProviderKind → Bool
  | .ollama => match cfg.ollama with | some c => c.enabled | none => false
  | .lmstudio => match cfg.lmstudio with | some c => c.enabled | none => false
  | .localai => match cfg.localai with | some c => c.enabled | none => false
  | .gemini => match cfg.gemini with | some c => c.enabled | none => false

/-! Specification-side definitions, stated from the specification's words to
be compared with the translated code. -/

/-- The winner rule as the specification words it: the category whose vote
count is strictly greater than each of the other two wins; when no category
strictly dominates both others (including exact ties), the result is
"hold". -/
def specWinner (buy_votes sell_votes hold_votes : Nat) : String :=
  if buy_votes > sell_votes ∧ buy_votes > hold_votes then "buy"
  else if sell_votes > buy_votes ∧ sell_votes > hold_votes then "sell"
  else if hold_votes > buy_votes ∧ hold_votes > sell_votes then "hold"
  else "hold"

/-- A buy-trigger phrase of §4.2 occurs in the lowercased text. -/
def buyTrigger (text_lower : String) : Bool :=
  containsSubstr text_lower "recommend buy" || containsSubstr text_lower "should buy"

/-- A sell-trigger phrase of §4.2 occurs in the lowercased text. -/
def sellTrigger (text_lower : String) : Bool :=
  containsSubstr text_lower "recommend sell" || containsSubstr text_lower "should sell"
    || containsSubstr text_lower "avoid" || containsSubstr text_lower "skip"

/-! Helper lemmas. -/

/-- The gather-then-filter loop of `analyze_token` keeps every response, since
every gathered entry is `Except.ok`. -/
lemma filterMap_ok_map (f : ProviderCall → AIResponse) (l : List ProviderCall) :
    ((l.map (fun p => (Except.ok (f p) : Except String AIResponse))).filterMap (fun r =>
      match r with
      | .ok a => some a
      | .error _ => none)) = l.map f := by
  induction l with
  | nil => rfl
  | cons p t ih => simp [List.map_cons, List.filterMap_cons, ih]

/-- `analyze_token` is the registration-order map of the per-provider wrapper
over the provider list. -/
lemma analyze_token_eq_map (providers : List ProviderCall) :
    analyze_token providers = providers.map safe_analyze_token := by
  cases providers with
  | nil => rfl
  | cons p t =>
      simp only [analyze_token, List.isEmpty_cons, if_neg Bool.false_ne_true]
      exact filterMap_ok_map safe_analyze_token (p :: t)

/-- The code's winner rule agrees with the specification's strict-dominator
rule at every vote tally. -/
lemma consensusRecommendation_eq_specWinner (b s h : Nat) :
    consensusRecommendation b s h = specWinner b s h := by
  unfold consensusRecommendation specWinner
  split_ifs <;> rfl

/-- Sample responses used to instantiate proved theorems at concrete
inputs. -/
def sampleBuyA : AIResponse :=
  { success := true, analysis := "a", confidence := 0.8, recommendation := "buy"
    risk_score := 0.4, reasoning := ["- x"], metadata := [("provider", "ollama")] }

def sampleBuyB : AIResponse :=
  { success := true, analysis := "b", confidence := 0.7, recommendation := "buy" }

def sampleSell : AIResponse :=
  { success := true, analysis := "c", confidence := 0.6, recommendation := "sell" }

/-! Claim theorems. -/

/-- C1: for every non-empty response list, the consensus recommendation of
`get_consensus_analysis` is the recommendation whose vote count is strictly
greater than each of the other two categories (the specification's
strict-dominator rule), and "hold" whenever no category strictly dominates,
ties included. -/
theorem consensus_recommendation_strict_winner (responses : List AIResponse)
    (h : responses ≠ []) :
    (get_consensus_analysis responses).recommendation =
      specWinner (voteCount responses "buy") (voteCount responses "sell")
        (voteCount responses "hold") := by
  have hne : responses.isEmpty = false := by
    simpa [List.isEmpty_iff] using h
  simp only [get_consensus_analysis, hne, Bool.false_eq_true, if_false]
  exact consensusRecommendation_eq_specWinner _ _ _

theorem consensus_recommendation_strict_winner_witness :
    ([sampleBuyA, sampleBuyB, sampleSell] : List AIResponse) ≠ []
    ∧ (get_consensus_analysis [sampleBuyA, sampleBuyB, sampleSell]).recommendation =
        specWinner (voteCount [sampleBuyA, sampleBuyB, sampleSell] "buy")
          (voteCount [sampleBuyA, sampleBuyB, sampleSell] "sell")
          (voteCount [sampleBuyA, sampleBuyB, sampleSell] "hold")
    ∧ specWinner (voteCount [sampleBuyA, sampleBuyB, sampleSell] "buy")
          (voteCount [sampleBuyA, sampleBuyB, sampleSell] "sell")
          (voteCount [sampleBuyA, sampleBuyB, sampleSell] "hold") = "buy" :=
  ⟨by simp, consensus_recommendation_strict_winner _ (by simp), by decide⟩

/-- C2: for every non-empty response list, the consensus confidence and risk
are the arithmetic means of all responses' values, and a failure outcome
built by `_safe_analyze_token` from a raised exception carries the defaults
confidence 0 and risk 1/2 into those means. -/
theorem consensus_scores_are_means (responses : List AIResponse)
    (h : responses ≠ []) :
    (get_consensus_analysis responses).confidence =
        (responses.map (fun r => r.confidence)).sum / (responses.length : ℚ)
    ∧ (get_consensus_analysis responses).risk_score =
        (responses.map (fun r => r.risk_score)).sum / (responses.length : ℚ)
    ∧ (∀ name e,
        (safe_analyze_token { name := name, result := Except.error e }).confidence = 0
        ∧ (safe_analyze_token { name := name, result := Except.error e }).risk_score = 1/2) := by
  have hne : responses.isEmpty = false := by
    simpa [List.isEmpty_iff] using h
  refine ⟨?_, ?_, ?_⟩
  · simp [get_consensus_analysis, hne]
  · simp [get_consensus_analysis, hne]
  · intro name e
    exact ⟨rfl, rfl⟩

theorem consensus_scores_are_means_witness :
    ([sampleBuyA, sampleBuyB, sampleSell] : List AIResponse) ≠ []
    ∧ (get_consensus_analysis [sampleBuyA, sampleBuyB, sampleSell]).confidence =
        (([sampleBuyA, sampleBuyB, sampleSell].map (fun r => r.confidence)).sum / 3)
    ∧ (([sampleBuyA, sampleBuyB, sampleSell].map (fun r => r.confidence)).sum / 3 : ℚ) = 0.7 :=
  ⟨by simp, (consensus_scores_are_means _ (by simp)).1,
    by norm_num [sampleBuyA, sampleBuyB, sampleSell]⟩

/-- C3: the orchestrator's `analyze_token` returns one outcome per registered
provider in registration order — position `i` of the output is the wrapped
result of provider `i` — and the empty provider list yields the empty list.
Non-propagation of exceptions is expressed by the embedding itself: every
provider behaviour, raising (`Except.error`) included, is mapped to a plain
response list. -/
theorem analyze_token_shape (providers : List ProviderCall) :
    (analyze_token providers).length = providers.length
    ∧ analyze_token [] = []
    ∧ ∀ i : Nat, (analyze_token providers).get? i =
        (providers.get? i).map safe_analyze_token := by
  refine ⟨?_, rfl, ?_⟩
  · rw [analyze_token_eq_map, List.length_map]
  · intro i
    rw [analyze_token_eq_map, List.get?_map]

/-- C6: consensus over the empty outcome list is the fixed failure response —
`success=false`, the exact message, and every other field left at its
dataclass default (no aggregation computed); in particular this is what the
zero-adapter `analyze_token` feeds into consensus. -/
theorem consensus_empty_no_providers :
    get_consensus_analysis [] =
      { success := false, analysis := "No AI providers available for analysis" }
    ∧ get_consensus_analysis (analyze_token []) =
      { success := false, analysis := "No AI providers available for analysis" }
    ∧ (get_consensus_analysis []).confidence = 0
    ∧ (get_consensus_analysis []).risk_score = 1/2
    ∧ (get_consensus_analysis []).reasoning = []
    ∧ (get_consensus_analysis []).metadata = none :=
  ⟨rfl, rfl, rfl, rfl, rfl, rfl⟩

/-- C7: when structured extraction raises inside the interpreter (the
`except` handler of `_parse_analysis_response`), the Gemini and Ollama
interpreters return `success=true` with the raw text, the `parse_error` note
in the metadata, and the dataclass-default scores and recommendation — never
an analysis failure. -/
theorem parse_error_keeps_success :
    ∀ model text err : String,
      geminiParseAnalysisResponse model (some err) text =
        { success := true, analysis := text
          metadata := [("provider", "gemini"), ("model", model), ("parse_error", err)] }
      ∧ ollamaParseAnalysisResponse model (some err) text =
        { success := true, analysis := text
          metadata := [("provider", "ollama"), ("model", model), ("parse_error", err)] } :=
  fun _ _ _ => ⟨rfl, rfl⟩

/-! Registry lemmas. -/

/-- Gemini construction fails exactly on a falsy (absent or empty) API
key. -/
lemma geminiInit_error_iff (g : GeminiConfig) :
    (∃ e, geminiInit g = Except.error e) ↔ (g.api_key = none ∨ g.api_key = some "") := by
  rcases hk : g.api_key with _ | s
  · simp [geminiInit, hk]
  · by_cases hs : s = ""
    · subst hs
      simp [geminiInit, hk]
    · simp [geminiInit, hk, hs]

lemma ollamaInit_kind (c : LocalConfig) (p : Provider)
    (h : ollamaInit c = Except.ok p) : p.kind = .ollama := by
  simp only [ollamaInit, Except.ok.injEq] at h
  subst h
  rfl

lemma lmstudioInit_kind (c : LocalConfig) (p : Provider)
    (h : lmstudioInit c = Except.ok p) : p.kind = .lmstudio := by
  simp only [lmstudioInit, Except.ok.injEq] at h
  subst h
  rfl

lemma localaiInit_kind (c : LocalConfig) (p : Provider)
    (h : localaiInit c = Except.ok p) : p.kind = .localai := by
  simp only [localaiInit, Except.ok.injEq] at h
  subst h
  rfl

lemma geminiInit_kind (c : GeminiConfig) (p : Provider)
    (h : geminiInit c = Except.ok p) : p.kind = .gemini := by
  rcases hk : c.api_key with _ | s
  · simp [geminiInit, hk] at h
  · by_cases hs : s = ""
    · subst hs
      simp [geminiInit, hk] at h
    · simp only [geminiInit, hk, Option.getD_some] at h
      rw [if_neg (by simpa using hs)] at h
      simp only [Except.ok.injEq] at h
      subst h
      rfl

/-- Inverting membership in one registry slot: the entry was present,
enabled, and its constructor succeeded with this provider. -/
lemma mem_setupSlot {α : Type} {entry : Option α} {en : α → Bool}
    {mk : α → Except String Provider} {p : Provider}
    (h : p ∈ setupSlot entry en mk) :
    ∃ c, entry = some c ∧ en c = true ∧ mk c = Except.ok p := by
  match entry with
  | none => simp [setupSlot] at h
  | some c =>
      refine ⟨c, rfl, ?_⟩
      by_cases he : en c = true
      · refine ⟨he, ?_⟩
        simp only [setupSlot, if_pos he] at h
        cases hmk : mk c with
        | ok q =>
            rw [hmk] at h
            simp only [List.mem_singleton] at h
            rw [h]
        | error e =>
            rw [hmk] at h
            simp at h
      · simp only [setupSlot, if_neg he] at h
        simp at h

/-- The kinds a slot contributes: nothing, or exactly the slot's own kind. -/
lemma setupSlot_kinds {α : Type} (entry : Option α) (en : α → Bool)
    (mk : α → Except String Provider) (k : ProviderKind)
    (hmk : ∀ c p, mk c = Except.ok p → p.kind = k) :
    (setupSlot entry en mk).map Provider.kind = []
      ∨ (setupSlot entry en mk).map Provider.kind = [k] := by
  match entry with
  | none => exact Or.inl rfl
  | some c =>
      by_cases he : en c = true
      · cases hmk' : mk c with
        | ok q =>
            right
            simp [setupSlot, if_pos he, hmk', hmk c q hmk']
        | error e =>
            left
            simp [setupSlot, if_pos he, hmk']
      · left
        simp [setupSlot, if_neg he]

/-- A list that is `[]` or `[k]` is a sublist of `[k]`. -/
lemma kinds_sublist_single {l : List ProviderKind} {k : ProviderKind}
    (h : l = [] ∨ l = [k]) : List.Sublist l [k] := by
  rcases h with h | h <;> subst h
  · exact List.nil_sublist _
  · exact List.Sublist.refl _

/-- Sample configurations used to instantiate registry theorems. -/
def cfgAllEnabled : ProvidersConfig :=
  { ollama := some { enabled := true }
    lmstudio := some { enabled := true }
    localai := some { enabled := true }
    gemini := some { enabled := true, api_key := some "k" } }

def cfgGeminiNoKey : ProvidersConfig :=
  { ollama := some { enabled := true }
    gemini := some { enabled := true } }

/-- C8: construction fails (raises instead of producing a runtime outcome)
exactly when the mandatory credential is absent — the Gemini API key being
falsy — while the local backends' constructors always succeed; and
`_setup_providers` catches the construction failure, excludes that adapter,
and produces exactly the list the remaining slots produce. -/
theorem gemini_key_required_registry_continues :
    (∀ g : GeminiConfig,
        (∃ e, geminiInit g = Except.error e) ↔ (g.api_key = none ∨ g.api_key = some ""))
    ∧ (∀ c : LocalConfig, ∃ p, ollamaInit c = Except.ok p)
    ∧ (∀ c : LocalConfig, ∃ p, lmstudioInit c = Except.ok p)
    ∧ (∀ cfg : ProvidersConfig, ∀ g : GeminiConfig,
        cfg.gemini = some g → (g.api_key = none ∨ g.api_key = some "") →
          setup_providers cfg = setup_providers { cfg with gemini := none }) := by
  refine ⟨geminiInit_error_iff, fun c => ⟨_, rfl⟩, fun c => ⟨_, rfl⟩, ?_⟩
  intro cfg g hg hk
  obtain ⟨e, he⟩ := (geminiInit_error_iff g).mpr hk
  simp [setup_providers, setupSlot, hg, he]

theorem gemini_key_required_registry_continues_witness :
    setup_providers cfgGeminiNoKey =
      setup_providers { cfgGeminiNoKey with gemini := none }
    ∧ setup_providers cfgGeminiNoKey =
      [{ kind := .ollama, endpointOrKey := "http://localhost:11434"
         model := "llama3.2", timeout := 30 }] :=
  ⟨gemini_key_required_registry_continues.2.2.2 cfgGeminiNoKey
      { enabled := true } rfl (Or.inl rfl),
    by decide⟩

/-- C10: for every configuration, the kinds of the constructed provider list
form a sublist of the fixed order Ollama, LM Studio, LocalAI, Gemini (hence
each kind occurs at most once), and every constructed provider's kind had its
configuration entry present with `enabled=true`.  The configuration mapping
is read by key, so its own ordering cannot influence this. -/
theorem setup_fixed_kind_order (cfg : ProvidersConfig) :
    List.Sublist ((setup_providers cfg).map Provider.kind)
        [ProviderKind.ollama, ProviderKind.lmstudio, ProviderKind.localai, ProviderKind.gemini]
    ∧ (∀ k : ProviderKind, ((setup_providers cfg).map Provider.kind).count k ≤ 1)
    ∧ (∀ p : Provider, p ∈ setup_providers cfg → kindEnabled cfg p.kind = true) := by
  have h1 := setupSlot_kinds cfg.ollama (fun c => c.enabled) ollamaInit .ollama ollamaInit_kind
  have h2 := setupSlot_kinds cfg.lmstudio (fun c => c.enabled) lmstudioInit .lmstudio lmstudioInit_kind
  have h3 := setupSlot_kinds cfg.localai (fun c => c.enabled) localaiInit .localai localaiInit_kind
  have h4 := setupSlot_kinds cfg.gemini (fun c => c.enabled) geminiInit .gemini geminiInit_kind
  have hsub : List.Sublist ((setup_providers cfg).map Provider.kind)
      [ProviderKind.ollama, ProviderKind.lmstudio, ProviderKind.localai, ProviderKind.gemini] := by
    have e : (setup_providers cfg).map Provider.kind =
        (setupSlot cfg.ollama (fun c => c.enabled) ollamaInit).map Provider.kind
          ++ ((setupSlot cfg.lmstudio (fun c => c.enabled) lmstudioInit).map Provider.kind
          ++ ((setupSlot cfg.localai (fun c => c.enabled) localaiInit).map Provider.kind
          ++ (setupSlot cfg.gemini (fun c => c.enabled) geminiInit).map Provider.kind)) := by
      simp [setup_providers]
    rw [e]
    exact List.Sublist.append (kinds_sublist_single h1)
      (List.Sublist.append (kinds_sublist_single h2)
        (List.Sublist.append (kinds_sublist_single h3) (kinds_sublist_single h4)))
  refine ⟨hsub, ?_, ?_⟩
  · intro k
    have := hsub.count_le k
    calc ((setup_providers cfg).map Provider.kind).count k
        ≤ ([ProviderKind.ollama, .lmstudio, .localai, .gemini]).count k := this
      _ ≤ 1 := by cases k <;> simp [List.count_cons]
  · intro p hp
    simp only [setup_providers, List.mem_append] at hp
    rcases hp with ((hp | hp) | hp) | hp
    · obtain ⟨c, hc, he, hmk⟩ := mem_setupSlot hp
      rw [ollamaInit_kind c p hmk]
      simp [kindEnabled, hc, he]
    · obtain ⟨c, hc, he, hmk⟩ := mem_setupSlot hp
      rw [lmstudioInit_kind c p hmk]
      simp [kindEnabled, hc, he]
    · obtain ⟨c, hc, he, hmk⟩ := mem_setupSlot hp
      rw [localaiInit_kind c p hmk]
      simp [kindEnabled, hc, he]
    · obtain ⟨c, hc, he, hmk⟩ := mem_setupSlot hp
      rw [geminiInit_kind c p hmk]
      simp [kindEnabled, hc, he]

theorem setup_fixed_kind_order_witness :
    kindEnabled cfgAllEnabled
      (Provider.kind { kind := .ollama, endpointOrKey := "http://localhost:11434"
                       model := "llama3.2", timeout := 30 }) = true :=
  (setup_fixed_kind_order cfgAllEnabled).2.2
    { kind := .ollama, endpointOrKey := "http://localhost:11434"
      model := "llama3.2", timeout := 30 }
    (by decide)

/-! Well-formedness invariants. -/

/-- The per-adapter outcome invariant of §3: scores within `[0,1]`, an
enumerated recommendation, at most five reasoning entries. -/
def WellFormed (r : AIResponse) : Prop :=
  0 ≤ r.confidence ∧ r.confidence ≤ 1
    ∧ 0 ≤ r.risk_score ∧ r.risk_score ≤ 1
    ∧ (r.recommendation = "buy" ∨ r.recommendation = "sell" ∨ r.recommendation = "hold")
    ∧ r.reasoning.length ≤ 5

/-- The consensus-decision invariant: as above with the ten-entry reasoning
cap. -/
def ConsensusWellFormed (c : ConsensusResponse) : Prop :=
  0 ≤ c.confidence ∧ c.confidence ≤ 1
    ∧ 0 ≤ c.risk_score ∧ c.risk_score ≤ 1
    ∧ (c.recommendation = "buy" ∨ c.recommendation = "sell" ∨ c.recommendation = "hold")
    ∧ c.reasoning.length ≤ 10

lemma geminiConfidence_mem (tl : String) :
    0 ≤ geminiConfidence tl ∧ geminiConfidence tl ≤ 1 := by
  unfold geminiConfidence
  split_ifs <;> norm_num

lemma geminiRisk_mem (tl : String) :
    0 ≤ geminiRisk tl ∧ geminiRisk tl ≤ 1 := by
  unfold geminiRisk
  split_ifs <;> norm_num

lemma geminiRecommendation_mem (tl : String) :
    geminiRecommendation tl = "buy" ∨ geminiRecommendation tl = "sell"
      ∨ geminiRecommendation tl = "hold" := by
  unfold geminiRecommendation
  split_ifs <;> simp

lemma lmstudioConfidence_mem (tl : String) :
    0 ≤ lmstudioConfidence tl ∧ lmstudioConfidence tl ≤ 1 := by
  unfold lmstudioConfidence
  split_ifs <;> norm_num

lemma lmstudioRisk_mem (tl : String) :
    0 ≤ lmstudioRisk tl ∧ lmstudioRisk tl ≤ 1 := by
  unfold lmstudioRisk
  split_ifs <;> norm_num

lemma lmstudioRecommendation_mem (tl : String) :
    lmstudioRecommendation tl = "buy" ∨ lmstudioRecommendation tl = "sell"
      ∨ lmstudioRecommendation tl = "hold" := by
  unfold lmstudioRecommendation
  split_ifs <;> simp

lemma ollamaConfidence_mem (tl : String) :
    0 ≤ ollamaConfidence tl ∧ ollamaConfidence tl ≤ 1 := by
  unfold ollamaConfidence
  split_ifs <;> norm_num

lemma ollamaRisk_mem (tl : String) :
    0 ≤ ollamaRisk tl ∧ ollamaRisk tl ≤ 1 := by
  unfold ollamaRisk
  split_ifs <;> norm_num

lemma ollamaRecommendation_mem (tl : String) :
    ollamaRecommendation tl = "buy" ∨ ollamaRecommendation tl = "sell"
      ∨ ollamaRecommendation tl = "hold" := by
  unfold ollamaRecommendation
  split_ifs <;> simp

lemma localaiConfidence_mem (tl : String) :
    0 ≤ localaiConfidence tl ∧ localaiConfidence tl ≤ 1 := by
  unfold localaiConfidence
  split_ifs <;> norm_num

lemma localaiRisk_mem (tl : String) :
    0 ≤ localaiRisk tl ∧ localaiRisk tl ≤ 1 := by
  unfold localaiRisk
  split_ifs <;> norm_num

lemma localaiRecommendation_mem (tl : String) :
    localaiRecommendation tl = "buy" ∨ localaiRecommendation tl = "sell"
      ∨ localaiRecommendation tl = "hold" := by
  unfold localaiRecommendation
  split_ifs <;> simp

/-- A failure outcome built from dataclass defaults plus `success`, `analysis`
and `metadata` is well-formed. -/
lemma default_scores_wf (s : Bool) (a : String) (m : List (String × String)) :
    WellFormed { success := s, analysis := a, metadata := m } := by
  refine ⟨by norm_num, by norm_num, by norm_num, by norm_num, Or.inr (Or.inr rfl), by simp⟩

lemma geminiParseCore_wf (model text : String) :
    WellFormed (geminiParseCore model text) := by
  refine ⟨(geminiConfidence_mem _).1, (geminiConfidence_mem _).2,
    (geminiRisk_mem _).1, (geminiRisk_mem _).2, geminiRecommendation_mem _, ?_⟩
  simpa [geminiParseCore, geminiReasoning] using List.length_take_le 5 _

lemma lmstudioParseCore_wf (model text : String) :
    WellFormed (lmstudioParseCore model text) := by
  refine ⟨(lmstudioConfidence_mem _).1, (lmstudioConfidence_mem _).2,
    (lmstudioRisk_mem _).1, (lmstudioRisk_mem _).2, lmstudioRecommendation_mem _, ?_⟩
  simpa [lmstudioParseCore, lmstudioReasoning] using List.length_take_le 5 _

lemma ollamaParseCore_wf (model text : String) :
    WellFormed (ollamaParseCore model text) := by
  refine ⟨(ollamaConfidence_mem _).1, (ollamaConfidence_mem _).2,
    (ollamaRisk_mem _).1, (ollamaRisk_mem _).2, ollamaRecommendation_mem _, ?_⟩
  simpa [ollamaParseCore, ollamaReasoning] using List.length_take_le 5 _

lemma localaiParseCore_wf (model text : String) :
    WellFormed (localaiParseCore model text) := by
  refine ⟨(localaiConfidence_mem _).1, (localaiConfidence_mem _).2,
    (localaiRisk_mem _).1, (localaiRisk_mem _).2, localaiRecommendation_mem _, ?_⟩
  simpa [localaiParseCore, localaiReasoning] using List.length_take_le 5 _

lemma consensusRecommendation_mem (b s h : Nat) :
    consensusRecommendation b s h = "buy" ∨ consensusRecommendation b s h = "sell"
      ∨ consensusRecommendation b s h = "hold" := by
  unfold consensusRecommendation
  split_ifs <;> simp

/-- Mean of a list of rationals each within `[0,1]` stays within `[0,1]`. -/
lemma mean_mem_unit (l : List ℚ) (hne : l ≠ [])
    (h : ∀ x ∈ l, 0 ≤ x ∧ x ≤ 1) :
    0 ≤ l.sum / (l.length : ℚ) ∧ l.sum / (l.length : ℚ) ≤ 1 := by
  have hlen : 0 < (l.length : ℚ) := by
    have : 0 < l.length := List.length_pos.mpr hne
    exact_mod_cast this
  constructor
  · exact div_nonneg (List.sum_nonneg fun x hx => (h x hx).1) hlen.le
  · rw [div_le_one hlen]
    calc l.sum ≤ l.length • (1 : ℚ) := List.sum_le_card_nsmul l 1 fun x hx => (h x hx).2
      _ = (l.length : ℚ) := by simp

/-- C9: every outcome any operation of the system produces is well-formed —
each adapter's `analyze_token` under every network behaviour, the
orchestrator's collected list whenever the providers' returned responses are
well-formed, and the consensus decision (ten-entry reasoning cap included)
over any list of well-formed outcomes. -/
theorem outcomes_well_formed :
    (∀ (model : String) (net : GeminiNet), WellFormed (geminiAnalyzeToken model net))
    ∧ (∀ (model : String) (net : LocalNet), WellFormed (ollamaAnalyzeToken model net))
    ∧ (∀ (model : String) (net : LocalNet), WellFormed (lmstudioAnalyzeToken model net))
    ∧ (∀ (model : String) (net : LocalNet), WellFormed (localaiAnalyzeToken model net))
    ∧ (∀ providers : List ProviderCall,
        (∀ p ∈ providers, ∀ r, p.result = Except.ok r → WellFormed r) →
        ∀ out ∈ analyze_token providers, WellFormed out)
    ∧ (∀ responses : List AIResponse,
        (∀ r ∈ responses, WellFormed r) →
        ConsensusWellFormed (get_consensus_analysis responses)) := by
  refine ⟨?_, ?_, ?_, ?_, ?_, ?_⟩
  · intro model net
    cases net with
    | raised e => exact default_scores_wf _ _ _
    | badStatus t => exact default_scores_wf _ _ _
    | noCandidates => exact default_scores_wf _ _ _
    | okText raised text =>
        cases raised with
        | some err => exact default_scores_wf _ _ _
        | none => exact geminiParseCore_wf model text
  · intro model net
    cases net with
    | raised e => exact default_scores_wf _ _ _
    | badStatus t => exact default_scores_wf _ _ _
    | okText raised text =>
        cases raised with
        | some err => exact default_scores_wf _ _ _
        | none => exact ollamaParseCore_wf model text
  · intro model net
    cases net with
    | raised e => exact default_scores_wf _ _ _
    | badStatus t => exact default_scores_wf _ _ _
    | okText raised text =>
        cases raised with
        | some err => exact default_scores_wf _ _ _
        | none => exact lmstudioParseCore_wf model text
  · intro model net
    cases net with
    | raised e => exact default_scores_wf _ _ _
    | badStatus t => exact default_scores_wf _ _ _
    | okText raised text =>
        cases raised with
        | some err => exact default_scores_wf _ _ _
        | none => exact localaiParseCore_wf model text
  · intro providers hprov out hout
    rw [analyze_token_eq_map] at hout
    obtain ⟨p, hp, hpe⟩ := List.mem_map.mp hout
    subst hpe
    unfold safe_analyze_token
    cases hres : p.result with
    | ok r => exact hprov p hp r hres
    | error e => exact default_scores_wf _ _ _
  · intro responses hres
    by_cases hne : responses = []
    · subst hne
      refine ⟨?_, ?_, ?_, ?_, Or.inr (Or.inr rfl), ?_⟩ <;> norm_num [get_consensus_analysis]
    have hempty : responses.isEmpty = false := by simpa [List.isEmpty_iff] using hne
    have hconf := mean_mem_unit (responses.map (fun r => r.confidence))
      (by simpa using hne)
      (by
        intro x hx
        obtain ⟨r, hr, hrx⟩ := List.mem_map.mp hx
        obtain ⟨h1, h2, _⟩ := hres r hr
        exact hrx ▸ ⟨h1, h2⟩)
    have hrisk := mean_mem_unit (responses.map (fun r => r.risk_score))
      (by simpa using hne)
      (by
        intro x hx
        obtain ⟨r, hr, hrx⟩ := List.mem_map.mp hx
        obtain ⟨_, _, h3, h4, _⟩ := hres r hr
        exact hrx ▸ ⟨h3, h4⟩)
    refine ⟨?_, ?_, ?_, ?_, ?_, ?_⟩
    · simpa [get_consensus_analysis, hempty, List.length_map] using
        (by simpa [List.length_map] using hconf.1 :
          0 ≤ (responses.map (fun r => r.confidence)).sum / (responses.length : ℚ))
    · simpa [get_consensus_analysis, hempty, List.length_map] using
        (by simpa [List.length_map] using hconf.2 :
          (responses.map (fun r => r.confidence)).sum / (responses.length : ℚ) ≤ 1)
    · simpa [get_consensus_analysis, hempty, List.length_map] using
        (by simpa [List.length_map] using hrisk.1 :
          0 ≤ (responses.map (fun r => r.risk_score)).sum / (responses.length : ℚ))
    · simpa [get_consensus_analysis, hempty, List.length_map] using
        (by simpa [List.length_map] using hrisk.2 :
          (responses.map (fun r => r.risk_score)).sum / (responses.length : ℚ) ≤ 1)
    · simpa [get_consensus_analysis, hempty] using consensusRecommendation_mem _ _ _
    · simpa [get_consensus_analysis, hempty] using List.length_take_le 10 _

lemma sampleBuyA_wf : WellFormed sampleBuyA := by
  unfold WellFormed sampleBuyA
  norm_num

theorem outcomes_well_formed_witness :
    ConsensusWellFormed (get_consensus_analysis [sampleBuyA]) :=
  outcomes_well_formed.2.2.2.2.2 [sampleBuyA]
    (by
      intro r hr
      rw [List.mem_singleton.mp hr]
      exact sampleBuyA_wf)

/-! Substring lemmas. -/

lemma charsStartsWith_iff (hay needle : List Char) :
    charsStartsWith hay needle = true ↔ ∃ r, hay = needle ++ r := by
  induction needle generalizing hay with
  | nil => simp [charsStartsWith]
  | cons d ds ih =>
      cases hay with
      | nil => simp [charsStartsWith]
      | cons c t =>
          simp only [charsStartsWith, Bool.and_eq_true, beq_iff_eq, ih,
            List.cons_append, List.cons.injEq]
          constructor
          · rintro ⟨hc, r, hr⟩
            exact ⟨r, hc, hr⟩
          · rintro ⟨r, hc, hr⟩
            exact ⟨hc, r, hr⟩

lemma charsContains_iff (hay needle : List Char) :
    charsContains hay needle = true ↔ ∃ l r, hay = l ++ (needle ++ r) := by
  induction hay with
  | nil =>
      simp only [charsContains, charsStartsWith_iff]
      constructor
      · rintro ⟨r, hr⟩
        exact ⟨[], r, by simp [hr]⟩
      · rintro ⟨l, r, h⟩
        have h' := h.symm
        simp only [List.append_assoc, List.append_eq_nil] at h'
        exact ⟨r, by simp [h'.1, h'.2.1, h'.2.2]⟩
  | cons c t ih =>
      simp only [charsContains, Bool.or_eq_true, charsStartsWith_iff, ih]
      constructor
      · rintro (⟨r, hr⟩ | ⟨l, r, hr⟩)
        · exact ⟨[], r, by simp [hr]⟩
        · exact ⟨c :: l, r, by simp [hr]⟩
      · rintro ⟨l, r, hr⟩
        cases l with
        | nil => exact Or.inl ⟨r, by simpa using hr⟩
        | cons x xs =>
            simp only [List.cons_append, List.cons.injEq] at hr
            exact Or.inr ⟨xs, r, hr.2⟩

/-- Substring containment composes: a text containing a phrase contains every
sub-phrase of it. -/
lemma containsSubstr_trans {a b c : String}
    (hab : containsSubstr a b = true) (hbc : containsSubstr b c = true) :
    containsSubstr a c = true := by
  unfold containsSubstr at *
  rw [charsContains_iff] at *
  obtain ⟨l1, r1, h1⟩ := hab
  obtain ⟨l2, r2, h2⟩ := hbc
  exact ⟨l1 ++ l2, r2 ++ r1, by simp [h1, h2]⟩

/-- A text containing "extremely risky" contains "risky" — the reason the 0.9
branch of the Gemini risk rule can never fire. -/
lemma risky_of_extremely_risky {tl : String}
    (h : containsSubstr tl "extremely risky" = true) :
    containsSubstr tl "risky" = true :=
  containsSubstr_trans h (by decide)

/-! C4 — interpreter recommendation priority. -/

/-- C4 counterexample: in the text "should buy avoid" a sell-trigger phrase
("avoid") occurs, yet both the Gemini and the LM Studio interpreters
recommend "buy", because the source checks the buy-trigger phrases first —
the claimed sell-first priority is false. -/
theorem recommendation_sell_first_counterexample :
    sellTrigger "should buy avoid" = true
    ∧ geminiRecommendation "should buy avoid" = "buy"
    ∧ lmstudioRecommendation "should buy avoid" = "buy"
    ∧ ("buy" : String) ≠ "sell" := by
  refine ⟨rfl, rfl, rfl, by decide⟩

/-- C4 amended: the Gemini and LM Studio interpreters check the buy-trigger
phrases ("recommend buy"/"should buy") first, so a buy-trigger always wins;
a sell-trigger ("recommend sell"/"should sell"/"avoid"/"skip") yields "sell"
only when no buy-trigger is present; with neither the result is "hold".  The
Ollama interpreter instead recommends "buy" when "buy" and "recommend" both
occur anywhere, else "sell" when "sell" and "recommend" both occur, else
"hold". -/
theorem recommendation_priority_amended (tl : String) :
    (buyTrigger tl = true →
      geminiRecommendation tl = "buy" ∧ lmstudioRecommendation tl = "buy")
    ∧ (buyTrigger tl = false → sellTrigger tl = true →
      geminiRecommendation tl = "sell" ∧ lmstudioRecommendation tl = "sell")
    ∧ (buyTrigger tl = false → sellTrigger tl = false →
      geminiRecommendation tl = "hold" ∧ lmstudioRecommendation tl = "hold")
    ∧ (containsSubstr tl "buy" = true → containsSubstr tl "recommend" = true →
      ollamaRecommendation tl = "buy")
    ∧ ((containsSubstr tl "buy" && containsSubstr tl "recommend") = false →
      ((containsSubstr tl "sell" = true → containsSubstr tl "recommend" = true →
        ollamaRecommendation tl = "sell")
      ∧ ((containsSubstr tl "sell" && containsSubstr tl "recommend") = false →
        ollamaRecommendation tl = "hold"))) := by
  refine ⟨?_, ?_, ?_, ?_, ?_⟩
  · intro h
    simp only [buyTrigger] at h
    exact ⟨by simp [geminiRecommendation, h], by simp [lmstudioRecommendation, h]⟩
  · intro hb hs
    simp only [buyTrigger] at hb
    simp only [sellTrigger] at hs
    cases hrs : containsSubstr tl "recommend sell"
      <;> cases hss : containsSubstr tl "should sell"
      <;> cases hav : containsSubstr tl "avoid"
      <;> cases hsk : containsSubstr tl "skip"
      <;> simp_all [geminiRecommendation, lmstudioRecommendation]
  · intro hb hs
    simp only [buyTrigger] at hb
    simp only [sellTrigger] at hs
    cases hrs : containsSubstr tl "recommend sell"
      <;> cases hss : containsSubstr tl "should sell"
      <;> cases hav : containsSubstr tl "avoid"
      <;> cases hsk : containsSubstr tl "skip"
      <;> simp_all [geminiRecommendation, lmstudioRecommendation]
  · intro h1 h2
    simp [ollamaRecommendation, h1, h2]
  · intro hb
    constructor
    · intro h1 h2
      have hbuy : containsSubstr tl "buy" = false := by
        cases hby : containsSubstr tl "buy" with
        | false => rfl
        | true => simp [hby, h2] at hb
      simp [ollamaRecommendation, hbuy, h1, h2]
    · intro hs
      simp [ollamaRecommendation, hb, hs]

theorem recommendation_priority_amended_witness :
    geminiRecommendation "should buy avoid" = "buy"
    ∧ lmstudioRecommendation "should buy avoid" = "buy" :=
  (recommendation_priority_amended "should buy avoid").1 rfl

/-! C5 — interpreter risk table. -/

/-- C5 counterexample: the text "extremely risky" contains the phrase
"extremely risky", yet the Gemini and LM Studio interpreters assign risk 0.8,
not the claimed 0.9, because the source checks `"high risk" or "risky"`
first and "risky" occurs inside "extremely risky". -/
theorem risk_extremely_risky_counterexample :
    containsSubstr "extremely risky" "extremely risky" = true
    ∧ geminiRisk "extremely risky" = 0.8
    ∧ lmstudioRisk "extremely risky" = 0.8
    ∧ (0.8 : ℚ) ≠ 0.9 := by
  refine ⟨rfl, rfl, rfl, by norm_num⟩

/-- C5 amended: the Gemini/LM Studio risk order is "high risk"/"risky" → 0.8,
then "low risk"/"safe" → 0.2, then "extremely risky" (LM Studio: also
"very dangerous") → 0.9, default 0.5; since "extremely risky" contains
"risky", any text containing "extremely risky" scores 0.8 and Gemini's 0.9
branch is unreachable (LM Studio reaches 0.9 only via "very dangerous").
The Ollama interpreter checks "high risk" → 0.8, "low risk" → 0.2,
"very risky"/"extremely risky" → 0.9, default 0.5. -/
theorem risk_rule_order_amended (tl : String) :
    (containsSubstr tl "extremely risky" = true →
      geminiRisk tl = 0.8 ∧ lmstudioRisk tl = 0.8)
    ∧ ((containsSubstr tl "high risk" || containsSubstr tl "risky") = true →
      geminiRisk tl = 0.8 ∧ lmstudioRisk tl = 0.8)
    ∧ ((containsSubstr tl "high risk" || containsSubstr tl "risky") = false →
      (containsSubstr tl "low risk" || containsSubstr tl "safe") = true →
      geminiRisk tl = 0.2 ∧ lmstudioRisk tl = 0.2)
    ∧ ((containsSubstr tl "high risk" || containsSubstr tl "risky") = false →
      (containsSubstr tl "low risk" || containsSubstr tl "safe") = false →
      geminiRisk tl = 0.5
      ∧ (containsSubstr tl "very dangerous" = true → lmstudioRisk tl = 0.9)
      ∧ (containsSubstr tl "very dangerous" = false → lmstudioRisk tl = 0.5))
    ∧ (containsSubstr tl "high risk" = true → ollamaRisk tl = 0.8)
    ∧ (containsSubstr tl "high risk" = false →
      containsSubstr tl "low risk" = true → ollamaRisk tl = 0.2)
    ∧ (containsSubstr tl "high risk" = false →
      containsSubstr tl "low risk" = false →
      (containsSubstr tl "very risky" || containsSubstr tl "extremely risky") = true →
      ollamaRisk tl = 0.9)
    ∧ (containsSubstr tl "high risk" = false →
      containsSubstr tl "low risk" = false →
      (containsSubstr tl "very risky" || containsSubstr tl "extremely risky") = false →
      ollamaRisk tl = 0.5) := by
  refine ⟨?_, ?_, ?_, ?_, ?_, ?_, ?_, ?_⟩
  · intro h
    have hr := risky_of_extremely_risky h
    exact ⟨by simp [geminiRisk, hr], by simp [lmstudioRisk, hr]⟩
  · intro h
    exact ⟨by simp [geminiRisk, h], by simp [lmstudioRisk, h]⟩
  · intro h1 h2
    exact ⟨by simp [geminiRisk, h1, h2], by simp [lmstudioRisk, h1, h2]⟩
  · intro h1 h2
    have hr : containsSubstr tl "risky" = false := by
      simpa using (Bool.or_eq_false_iff.mp h1).2
    have he : containsSubstr tl "extremely risky" = false := by
      cases hx : containsSubstr tl "extremely risky" with
      | false => rfl
      | true => simp [risky_of_extremely_risky hx] at hr
    refine ⟨by simp [geminiRisk, h1, h2, he], ?_, ?_⟩
    · intro hd
      simp [lmstudioRisk, h1, h2, he, hd]
    · intro hd
      simp [lmstudioRisk, h1, h2, he, hd]
  · intro h
    simp [ollamaRisk, h]
  · intro h1 h2
    simp [ollamaRisk, h1, h2]
  · intro h1 h2 h3
    simp [ollamaRisk, h1, h2, h3]
  · intro h1 h2 h3
    simp [ollamaRisk, h1, h2, h3]

theorem risk_rule_order_amended_witness :
    geminiRisk "extremely risky" = 0.8 ∧ lmstudioRisk "extremely risky" = 0.8 :=
  (risk_rule_order_amended "extremely risky").1 rfl

end Autopump
